import Mathlib

/-!
# Remote execution and copy helpers of `cmd/inspektor-gadget/cmd/utils.go`

A shallow embedding of `execPodSimple`, `execPodCapture`, `execPod` and
`cpPodQuick`.  The Go functions talk to collaborators that live outside the
file (the Kubernetes client, the credential loader, the REST client, the SPDY
executor, `os/exec` and the ambient `viper` configuration).  Their outcomes are
the fields of a `World`; every call of a collaborator is recorded, in program
order, in a trace of `Event`s, so that "this step was (not) performed" is a
statement about the trace.

Go strings are modelled by `String`, a Go `error` by its text, a `nil` error by
`none`.
-/

namespace InspektorGadget

/-! ## Data model -/

/-- A non-nil Go `error`; `msg` is what its `Error()` method returns. -/
structure GoError where
  msg : String
deriving DecidableEq, Repr

/-- The method `Error()` of a Go error. -/
def GoError.Error (e : GoError) : String := e.msg

/-- The call `errors.New(text)`. -/
def errorsNew (text : String) : GoError := { msg := text }

/-- The call `fmt.Sprintf("%s", err)` on a non-nil error: the text of the error. -/
def sprintfErr (err : GoError) : String := err.Error

/-- The part of `corev1.Pod` that the file reads: the name of the pod. -/
structure Pod where
  Name : String
deriving DecidableEq, Repr

/-- The two fields of `metaV1.ListOptions` that the file sets. -/
structure ListOptions where
  LabelSelector : String
  FieldSelector : String
deriving DecidableEq, Repr

/-- The fields of `corev1.PodExecOptions` that the file sets. -/
structure PodExecOptions where
  Container : String
  Command : List String
  Stdin : Bool
  Stdout : Bool
  Stderr : Bool
  TTY : Bool
deriving DecidableEq, Repr

/-- The names `NameMayNotBe` that apimachinery's path validation refuses. -/
def NameMayNotBe : List String := [".", ".."]

/-- The one-character substrings `NameMayNotContain` that apimachinery's path
validation refuses. -/
def NameMayNotContain : List Char := ['/', '%']

/-- The function `IsValidPathSegmentName` of apimachinery, which the request
builder of client-go calls: the list of complaints about `name`, empty when
the name can be a path segment. -/
def IsValidPathSegmentName (name : String) : List String :=
  match NameMayNotBe.find? (fun illegalName => name == illegalName) with
  | some illegalName => ["may not be '" ++ illegalName ++ "'"]
  | none =>
    (NameMayNotContain.filter (fun illegalContent => name.data.contains illegalContent)).map
      (fun illegalContent => "may not contain '" ++ String.singleton illegalContent ++ "'")

/-- A REST request under construction, as client-go's `rest.Request` keeps it:
the parts of the URL set so far and whether a builder call has recorded an
error (`err`; its text is never read by the file).  `params` keeps the `Param`
calls in call order.  Once an error is recorded every later builder call
leaves the request as it is, and `URL()` is computed from the parts set. -/
structure Request where
  verb : String
  resource : String
  name : String
  ns : String
  namespaceSet : Bool
  subResource : String
  params : List (String × String)
  versionedParams : Option PodExecOptions
  err : Bool
deriving DecidableEq, Repr

/-- The call `restClient.Post()`. -/
def Request.Post : Request :=
  { verb := "POST", resource := "", name := "", ns := "", namespaceSet := false,
    subResource := "", params := [], versionedParams := none, err := false }

/-- The builder call `.Resource(resource)`: refused when a resource is already
set or when the resource is not a valid path segment. -/
def Request.Resource (r : Request) (resource : String) : Request :=
  if r.err then r
  else if r.resource ≠ "" then { r with err := true }
  else if IsValidPathSegmentName resource ≠ [] then { r with err := true }
  else { r with resource := resource }

/-- The builder call `.Name(resourceName)`: refused when the name is empty,
when a name is already set or when the name is not a valid path segment. -/
def Request.Name (r : Request) (resourceName : String) : Request :=
  if r.err then r
  else if resourceName = "" then { r with err := true }
  else if r.name ≠ "" then { r with err := true }
  else if IsValidPathSegmentName resourceName ≠ [] then { r with err := true }
  else { r with name := resourceName }

/-- The builder call `.Namespace(namespace)`: refused when a namespace is
already set or when the namespace is not a valid path segment. -/
def Request.Namespace (r : Request) (n : String) : Request :=
  if r.err then r
  else if r.namespaceSet then { r with err := true }
  else if IsValidPathSegmentName n ≠ [] then { r with err := true }
  else { r with namespaceSet := true, ns := n }

/-- The builder call `.SubResource(subresource)` with one segment: refused
when a sub-resource is already set or when the segment is not a valid path
segment. -/
def Request.SubResource (r : Request) (subresource : String) : Request :=
  if r.err then r
  else if r.subResource ≠ "" then { r with err := true }
  else if IsValidPathSegmentName subresource ≠ [] then { r with err := true }
  else { r with subResource := subresource }

/-- The builder call `.Param(paramName, s)`. -/
def Request.Param (r : Request) (paramName v : String) : Request :=
  if r.err then r
  else { r with params := r.params ++ [(paramName, v)] }

/-- The builder call `.VersionedParams(opts, scheme.ParameterCodec)`. -/
def Request.VersionedParams (r : Request) (opts : PodExecOptions) : Request :=
  if r.err then r
  else { r with versionedParams := some opts }

/-- The part of `clientcmd.ClientConfigLoadingRules` that the file sets. -/
structure LoadingRules where
  ExplicitPath : String
deriving DecidableEq, Repr

/-- The call `clientcmd.NewDefaultClientConfigLoadingRules()`: no explicit path. -/
def newDefaultClientConfigLoadingRules : LoadingRules := { ExplicitPath := "" }

/-- The fields of `remotecommand.StreamOptions`; the sinks are passed by the
caller, here only whether a standard input is attached and the tty flag. -/
structure StreamOptions where
  Stdin : Bool
  Tty : Bool
deriving DecidableEq, Repr

/-- The value built by `exec.Command(name, arg...)`. -/
structure Cmd where
  name : String
  args : List String
deriving DecidableEq, Repr

/-- The call `exec.Command(name, arg...)`. -/
def execCommand (name : String) (args : List String) : Cmd := { name := name, args := args }

/-- One call of a collaborator, or one output of the process itself. -/
inductive Event where
  | list (ns : String) (opts : ListOptions)
  | clientConfig (rules : LoadingRules)
  | restClientFor
  | newSPDYExecutor (method : String) (req : Request)
  | stream (opts : StreamOptions)
  | println (line : String)
  | start (cmd : Cmd)
  | wait (cmd : Cmd)
deriving DecidableEq, Repr

/-- The kind of a step, without its arguments. -/
inductive Step where
  | list | clientConfig | restClientFor | newSPDYExecutor | stream | println | start | wait
deriving DecidableEq, Repr

/-- The kind of step an event records. -/
def Event.step : Event → Step
  | .list _ _ => .list
  | .clientConfig _ => .clientConfig
  | .restClientFor => .restClientFor
  | .newSPDYExecutor _ _ => .newSPDYExecutor
  | .stream _ => .stream
  | .println _ => .println
  | .start _ => .start
  | .wait _ => .wait

/-- The collaborators of the file.  `Cfg`, `Cli` and `Exe` are the types of the
REST configuration, the REST client and the streaming executor, which the file
only passes along. -/
structure World (Cfg Cli Exe : Type) where
  /-- The value of `viper.GetString("kubeconfig")`. -/
  kubeconfig : String
  /-- The call `client.CoreV1().Pods(ns).List(opts)`: an error or `pods.Items`. -/
  list : String → ListOptions → Except GoError (List Pod)
  /-- The call `clientConfig.ClientConfig()` for the loading rules built. -/
  clientConfig : LoadingRules → Except GoError Cfg
  /-- The call `factory.SetKubernetesDefaults(restConfig)`. -/
  setKubernetesDefaults : Cfg → Cfg
  /-- The call `restclient.RESTClientFor(restConfig)`. -/
  restClientFor : Cfg → Except GoError Cli
  /-- The call `remotecommand.NewSPDYExecutor(restConfig, method, req.URL())`. -/
  newSPDYExecutor : Cfg → String → Request → Except GoError Exe
  /-- The call `exec.Stream(opts)`: the bytes written to the stdout sink, the
  bytes written to the stderr sink, and the error returned. -/
  stream : Exe → StreamOptions → String × String × Option GoError
  /-- The call `cmd.Start()`. -/
  start : Cmd → Option GoError
  /-- The call `cmd.Wait()`. -/
  wait : Cmd → Option GoError

/-- What a call of `execPod` does: the error returned (`none` for `nil`), what
was written to the two sinks, and the collaborator calls made, in order. -/
structure ExecOutcome where
  err : Option GoError
  stdout : String
  stderr : String
  trace : List Event
deriving DecidableEq, Repr

/-- What a call of `execPodCapture` does: the three values returned and the
collaborator calls made. -/
structure CaptureOutcome where
  stdout : String
  stderr : String
  err : Option GoError
  trace : List Event
deriving DecidableEq, Repr

/-- What a call of `execPodSimple` or `cpPodQuick` does: the string returned
and the collaborator calls made. -/
structure StringOutcome where
  result : String
  trace : List Event
deriving DecidableEq, Repr

/-! ## The functions of `utils.go` -/

/-- The request `req` built in `execPod` for the pod `podName`. -/
def execRequest (podName podCmd : String) : Request :=
  ((((((Request.Post).Resource "pods").Name podName).Namespace "kube-system").SubResource
    "exec").Param "container" "gadget").VersionedParams
    { Container := "gadget",
      Command := ["/bin/sh", "-c", podCmd],
      Stdin := false,
      Stdout := true,
      Stderr := true,
      TTY := false }

/-- The loading rules built in `execPod`: the explicit path is set when the
configured kubeconfig is not empty. -/
def loadingRules (kubeconfig : String) : LoadingRules :=
  let rules := newDefaultClientConfigLoadingRules
  if kubeconfig ≠ "" then { rules with ExplicitPath := kubeconfig } else rules

/-- The stream options `execPod` passes to `exec.Stream`. -/
def streamOptions : StreamOptions := { Stdin := false, Tty := false }

/-- The function `execPod`. -/
def execPod {Cfg Cli Exe : Type} (w : World Cfg Cli Exe) (node podCmd : String) : ExecOutcome :=
  let listOptions : ListOptions :=
    { LabelSelector := "k8s-app=gadget",
      FieldSelector := "spec.nodeName=" ++ node ++ ",status.phase=Running" }
  let t1 := [Event.list "kube-system" listOptions]
  match w.list "kube-system" listOptions with
  | .error err => { err := some err, stdout := "", stderr := "", trace := t1 }
  | .ok pods =>
    if h0 : pods.length = 0 then
      { err := some (errorsNew "not-found"), stdout := "", stderr := "", trace := t1 }
    else if pods.length ≠ 1 then
      { err := some (errorsNew "too-many"), stdout := "", stderr := "", trace := t1 }
    else
      let podName := (pods.get ⟨0, Nat.pos_of_ne_zero h0⟩).Name
      let t2 := t1 ++ [Event.clientConfig (loadingRules w.kubeconfig)]
      match w.clientConfig (loadingRules w.kubeconfig) with
      | .error err => { err := some err, stdout := "", stderr := "", trace := t2 }
      | .ok restConfig0 =>
        let restConfig := w.setKubernetesDefaults restConfig0
        let t3 := t2 ++ [Event.restClientFor]
        match w.restClientFor restConfig with
        | .error err => { err := some err, stdout := "", stderr := "", trace := t3 }
        | .ok _ =>
          let req := execRequest podName podCmd
          let t4 := t3 ++ [Event.newSPDYExecutor "POST" req]
          match w.newSPDYExecutor restConfig "POST" req with
          | .error err => { err := some err, stdout := "", stderr := "", trace := t4 }
          | .ok exec =>
            let t5 := t4 ++ [Event.stream streamOptions]
            let res := w.stream exec streamOptions
            { err := res.2.2, stdout := res.1, stderr := res.2.1, trace := t5 }

/-- The function `execPodCapture`: two fresh buffers receive what `execPod`
writes. -/
def execPodCapture {Cfg Cli Exe : Type} (w : World Cfg Cli Exe) (node podCmd : String) :
    CaptureOutcome :=
  let stdout := ""
  let stderr := ""
  let r := execPod w node podCmd
  { stdout := stdout ++ r.stdout, stderr := stderr ++ r.stderr, err := r.err, trace := r.trace }

/-- The function `execPodSimple`. -/
def execPodSimple {Cfg Cli Exe : Type} (w : World Cfg Cli Exe) (node podCmd : String) :
    StringOutcome :=
  let c := execPodCapture w node podCmd
  match c.err with
  | some err => { result := sprintfErr err ++ c.stdout ++ c.stderr, trace := c.trace }
  | none => { result := c.stdout ++ c.stderr, trace := c.trace }

/-- The string `kubectlCmd` built in `cpPodQuick`. -/
def kubectlCmd (kubeconfig srcPath podName destPath : String) : String :=
  let kubectlCmd := "kubectl "
  let kubectlCmd :=
    if kubeconfig ≠ "" then kubectlCmd ++ ("--kubeconfig=" ++ kubeconfig) else kubectlCmd
  kubectlCmd ++ (" cp " ++ srcPath ++ " kube-system/" ++ podName ++ ":" ++ destPath)

/-- The function `cpPodQuick`. -/
def cpPodQuick {Cfg Cli Exe : Type} (w : World Cfg Cli Exe) (node srcPath destPath : String) :
    StringOutcome :=
  let listOptions : ListOptions :=
    { LabelSelector := "k8s-app=gadget",
      FieldSelector := "spec.nodeName=" ++ node ++ ",status.phase=Running" }
  let t1 := [Event.list "kube-system" listOptions]
  match w.list "kube-system" listOptions with
  | .error err => { result := sprintfErr err, trace := t1 }
  | .ok pods =>
    if h0 : pods.length = 0 then
      { result := "not-found", trace := t1 }
    else if pods.length ≠ 1 then
      { result := "too-many", trace := t1 }
    else
      let podName := (pods.get ⟨0, Nat.pos_of_ne_zero h0⟩).Name
      let line := kubectlCmd w.kubeconfig srcPath podName destPath
      let t2 := t1 ++ [Event.println line]
      let cmd := execCommand "/bin/sh" ["-c", line]
      let t3 := t2 ++ [Event.start cmd]
      match w.start cmd with
      | some err => { result := sprintfErr err, trace := t3 }
      | none =>
        let t4 := t3 ++ [Event.wait cmd]
        match w.wait cmd with
        | some err => { result := sprintfErr err, trace := t4 }
        | none => { result := "", trace := t4 }

/-! ## Vocabulary of the properties -/

/-- The list options for `node`: the fixed label selector and the field
selector on the node name and the phase. -/
def podQuery (node : String) : ListOptions :=
  { LabelSelector := "k8s-app=gadget",
    FieldSelector := "spec.nodeName=" ++ node ++ ",status.phase=Running" }

/-- The steps of `execPod`, in program order. -/
def execSteps : List Step :=
  [Step.list, Step.clientConfig, Step.restClientFor, Step.newSPDYExecutor, Step.stream]

/-- The requests handed to `NewSPDYExecutor` in a trace, with their method. -/
def builtRequests : List Event → List (String × Request)
  | [] => []
  | Event.newSPDYExecutor m req :: t => (m, req) :: builtRequests t
  | _ :: t => builtRequests t

/-- The lines printed in a trace, in order. -/
def printed : List Event → List String
  | [] => []
  | Event.println line :: t => line :: printed t
  | _ :: t => printed t

/-- The child processes started in a trace, in order. -/
def spawned : List Event → List Cmd
  | [] => []
  | Event.start cmd :: t => cmd :: spawned t
  | _ :: t => spawned t

/-- A world in which every collaborator succeeds: the list call returns `pods`
and the remote command writes `out` and `err`. -/
def calmWorld (kubeconfig : String) (pods : List Pod) (out err : String) : World Unit Unit Unit :=
  { kubeconfig := kubeconfig,
    list := fun _ _ => .ok pods,
    clientConfig := fun _ => .ok (),
    setKubernetesDefaults := fun c => c,
    restClientFor := fun _ => .ok (),
    newSPDYExecutor := fun _ _ _ => .ok (),
    stream := fun _ _ => (out, err, none),
    start := fun _ => none,
    wait := fun _ => none }

/-- A world like `calmWorld` in which building the REST client fails. -/
def noClientWorld : World Unit Unit Unit :=
  { calmWorld "" [⟨"gadget-abc123"⟩] "" "" with
    restClientFor := fun _ => .error (errorsNew "no client") }

/-- A world in which the list call fails with an error whose text is empty. -/
def silentFailureWorld : World Unit Unit Unit :=
  { calmWorld "" [] "" "" with list := fun _ _ => .error (errorsNew "") }

/-- The number of positions of `s` at which `pat` starts. -/
def occurrences (pat : List Char) : List Char → Nat
  | [] => if pat.isEmpty then 1 else 0
  | c :: cs => (if pat.isPrefixOf (c :: cs) then 1 else 0) + occurrences pat cs

/-- The number of occurrences of the substring `pat` in `s`. -/
def countSubstr (pat s : String) : Nat := occurrences pat.data s.data

/-- Splitting into whitespace-separated words: `cur` is the word being read,
in reverse. -/
def wordsAux : List Char → List Char → List String
  | [], cur => if cur.isEmpty then [] else [String.mk cur.reverse]
  | c :: cs, cur =>
    if c.isWhitespace then
      (if cur.isEmpty then wordsAux cs [] else String.mk cur.reverse :: wordsAux cs [])
    else wordsAux cs (c :: cur)

/-- The whitespace-separated words of a string; empty words are dropped. -/
def words (s : String) : List String := wordsAux s.data []

/-- Splitting at every `sep`: `cur` is the term being read, in reverse. -/
def splitAux (sep : Char) : List Char → List Char → List String
  | [], cur => [String.mk cur.reverse]
  | c :: cs, cur =>
    if c = sep then String.mk cur.reverse :: splitAux sep cs [] else splitAux sep cs (c :: cur)

/-- The terms of a string split at every comma; empty terms are kept. -/
def commaTerms (s : String) : List String := splitAux ',' s.data []

/-- Whether `cpPodQuick` reaches the end: one pod listed, the child process
started and waited for without error. -/
def copySucceeded {Cfg Cli Exe : Type} (w : World Cfg Cli Exe) (node srcPath destPath : String) :
    Prop :=
  ∃ p : Pod, w.list "kube-system" (podQuery node) = .ok [p] ∧
    w.start (execCommand "/bin/sh" ["-c", kubectlCmd w.kubeconfig srcPath p.Name destPath]) = none ∧
    w.wait (execCommand "/bin/sh" ["-c", kubectlCmd w.kubeconfig srcPath p.Name destPath]) = none

/-- The list calls made in a trace, in order: namespace and options. -/
def listCalls : List Event → List (String × ListOptions)
  | [] => []
  | Event.list ns opts :: t => (ns, opts) :: listCalls t
  | _ :: t => listCalls t

/-! ## Properties -/

/-- C1: when the pod list call succeeds with zero items, `execPod` returns the
error with text "not-found" and `cpPodQuick` returns "not-found"; in both the
list call is the only step performed and nothing is written to the sinks. -/
theorem not_found_stops {Cfg Cli Exe : Type} (w : World Cfg Cli Exe)
    (node podCmd srcPath destPath : String) (pods : List Pod)
    (hlist : w.list "kube-system" (podQuery node) = .ok pods) (hlen : pods.length = 0) :
    (execPod w node podCmd).err = some (errorsNew "not-found") ∧
    (execPod w node podCmd).err.map GoError.Error = some "not-found" ∧
    (execPod w node podCmd).stdout = "" ∧
    (execPod w node podCmd).stderr = "" ∧
    (execPod w node podCmd).trace = [Event.list "kube-system" (podQuery node)] ∧
    (cpPodQuick w node srcPath destPath).result = "not-found" ∧
    (cpPodQuick w node srcPath destPath).trace = [Event.list "kube-system" (podQuery node)] := by
  simp only [podQuery] at hlist
  simp [execPod, cpPodQuick, podQuery, hlist, hlen, errorsNew, GoError.Error]

/-- Witness of `not_found_stops`: a node without pod. -/
theorem not_found_stops_witness :
    (execPod (calmWorld "" [] "o" "e") "node-1" "ls").err = some (errorsNew "not-found") ∧
    (execPod (calmWorld "" [] "o" "e") "node-1" "ls").err.map GoError.Error = some "not-found" ∧
    (execPod (calmWorld "" [] "o" "e") "node-1" "ls").stdout = "" ∧
    (execPod (calmWorld "" [] "o" "e") "node-1" "ls").stderr = "" ∧
    (execPod (calmWorld "" [] "o" "e") "node-1" "ls").trace =
      [Event.list "kube-system" (podQuery "node-1")] ∧
    (cpPodQuick (calmWorld "" [] "o" "e") "node-1" "a" "b").result = "not-found" ∧
    (cpPodQuick (calmWorld "" [] "o" "e") "node-1" "a" "b").trace =
      [Event.list "kube-system" (podQuery "node-1")] :=
  not_found_stops (calmWorld "" [] "o" "e") "node-1" "ls" "a" "b" [] rfl rfl

/-- C2: when the pod list call succeeds with two or more items, `execPod`
returns the error with text "too-many" and `cpPodQuick` returns "too-many"; in
both the list call is the only step performed, so no pod name is used. -/
theorem too_many_stops {Cfg Cli Exe : Type} (w : World Cfg Cli Exe)
    (node podCmd srcPath destPath : String) (pods : List Pod)
    (hlist : w.list "kube-system" (podQuery node) = .ok pods) (hlen : 2 ≤ pods.length) :
    (execPod w node podCmd).err = some (errorsNew "too-many") ∧
    (execPod w node podCmd).err.map GoError.Error = some "too-many" ∧
    (execPod w node podCmd).stdout = "" ∧
    (execPod w node podCmd).stderr = "" ∧
    (execPod w node podCmd).trace = [Event.list "kube-system" (podQuery node)] ∧
    builtRequests (execPod w node podCmd).trace = [] ∧
    (cpPodQuick w node srcPath destPath).result = "too-many" ∧
    (cpPodQuick w node srcPath destPath).trace = [Event.list "kube-system" (podQuery node)] ∧
    printed (cpPodQuick w node srcPath destPath).trace = [] ∧
    spawned (cpPodQuick w node srcPath destPath).trace = [] := by
  simp only [podQuery] at hlist
  have h0 : pods.length ≠ 0 := by omega
  have h1 : pods.length ≠ 1 := by omega
  simp [execPod, cpPodQuick, podQuery, hlist, h0, h1, errorsNew, GoError.Error, builtRequests,
    printed, spawned]

/-- Witness of `too_many_stops`: a node with two pods. -/
theorem too_many_stops_witness :
    (execPod (calmWorld "" [⟨"gadget-a"⟩, ⟨"gadget-b"⟩] "o" "e") "node-1" "ls").err =
      some (errorsNew "too-many") ∧
    (cpPodQuick (calmWorld "" [⟨"gadget-a"⟩, ⟨"gadget-b"⟩] "o" "e") "node-1" "a" "b").result =
      "too-many" :=
  have h := too_many_stops (calmWorld "" [⟨"gadget-a"⟩, ⟨"gadget-b"⟩] "o" "e") "node-1" "ls" "a" "b"
    [⟨"gadget-a"⟩, ⟨"gadget-b"⟩] rfl (by decide)
  ⟨h.1, h.2.2.2.2.2.2.1⟩

/-- A name that is none of the refused names and holds none of the refused
characters is a valid path segment. -/
theorem isValidPathSegmentName_eq_nil (name : String) (hdot : name ≠ ".") (hdots : name ≠ "..")
    (hslash : '/' ∉ name.data) (hpct : '%' ∉ name.data) : IsValidPathSegmentName name = [] := by
  have e1 : (name == ".") = false := beq_eq_false_iff_ne.2 hdot
  have e2 : (name == "..") = false := beq_eq_false_iff_ne.2 hdots
  simp [IsValidPathSegmentName, NameMayNotBe, NameMayNotContain, List.find?, List.filter, e1, e2,
    hslash, hpct]

/-- The request built for a pod whose name is a valid, non-empty path segment. -/
theorem execRequest_valid (podName podCmd : String) (hne : podName ≠ "") (hdot : podName ≠ ".")
    (hdots : podName ≠ "..") (hslash : '/' ∉ podName.data) (hpct : '%' ∉ podName.data) :
    execRequest podName podCmd =
      { verb := "POST", resource := "pods", name := podName, ns := "kube-system",
        namespaceSet := true, subResource := "exec", params := [("container", "gadget")],
        versionedParams := some
          { Container := "gadget", Command := ["/bin/sh", "-c", podCmd], Stdin := false,
            Stdout := true, Stderr := true, TTY := false },
        err := false } := by
  have h1 : IsValidPathSegmentName "pods" = [] := by decide
  have h2 : IsValidPathSegmentName "kube-system" = [] := by decide
  have h3 : IsValidPathSegmentName "exec" = [] := by decide
  have h4 := isValidPathSegmentName_eq_nil podName hdot hdots hslash hpct
  simp [execRequest, Request.Post, Request.Resource, Request.Name, Request.Namespace,
    Request.SubResource, Request.Param, Request.VersionedParams, h1, h2, h3, h4, hne]

/-- C3 (counterexample): when the single pod listed is named "a/b", or has an
empty name, the request `execPod` builds stops at the resource: no name, no
namespace, no sub-resource, no container and no command. -/
theorem exec_request_counterexample :
    builtRequests (execPod (calmWorld "" [⟨"a/b"⟩] "o" "e") "node-1" "echo hello").trace =
      [("POST",
        { verb := "POST", resource := "pods", name := "", ns := "", namespaceSet := false,
          subResource := "", params := [], versionedParams := none, err := true })] ∧
    builtRequests (execPod (calmWorld "" [⟨""⟩] "o" "e") "node-1" "echo hello").trace =
      [("POST",
        { verb := "POST", resource := "pods", name := "", ns := "", namespaceSet := false,
          subResource := "", params := [], versionedParams := none, err := true })] ∧
    builtRequests (execPod (calmWorld "" [⟨"a/b"⟩] "o" "e") "node-1" "echo hello").trace ≠
      [("POST",
        { verb := "POST", resource := "pods", name := "a/b", ns := "kube-system",
          namespaceSet := true, subResource := "exec", params := [("container", "gadget")],
          versionedParams := some
            { Container := "gadget", Command := ["/bin/sh", "-c", "echo hello"], Stdin := false,
              Stdout := true, Stderr := true, TTY := false },
          err := false })] := by
  decide

/-- C3 (amended): with exactly one pod listed and the credential and REST
client steps succeeding, `execPod` builds exactly one request, a function of
the pod's name and of `podCmd` only, so any other run under the same
conditions builds the same request.  When the pod's name is a valid path
segment (not empty, not "." or "..", without "/" and "%") that request is a
POST on resource "pods", the pod's name, namespace "kube-system", sub-resource
"exec", container "gadget", command `["/bin/sh", "-c", podCmd]`, stdin and tty
off, stdout and stderr on. -/
theorem exec_request_built {Cfg Cli Exe : Type} (w : World Cfg Cli Exe) (node podCmd : String)
    (p : Pod) (cfg : Cfg) (cli : Cli)
    (hlist : w.list "kube-system" (podQuery node) = .ok [p])
    (hcfg : w.clientConfig (loadingRules w.kubeconfig) = .ok cfg)
    (hcli : w.restClientFor (w.setKubernetesDefaults cfg) = .ok cli) :
    (p.Name ≠ "" → p.Name ≠ "." → p.Name ≠ ".." → '/' ∉ p.Name.data → '%' ∉ p.Name.data →
      builtRequests (execPod w node podCmd).trace =
        [("POST",
          { verb := "POST", resource := "pods", name := p.Name, ns := "kube-system",
            namespaceSet := true, subResource := "exec", params := [("container", "gadget")],
            versionedParams := some
              { Container := "gadget", Command := ["/bin/sh", "-c", podCmd], Stdin := false,
                Stdout := true, Stderr := true, TTY := false },
            err := false })]) ∧
    builtRequests (execPod w node podCmd).trace = [("POST", execRequest p.Name podCmd)] ∧
    ∀ (w2 : World Cfg Cli Exe) (cfg2 : Cfg) (cli2 : Cli),
      w2.list "kube-system" (podQuery node) = .ok [p] →
      w2.clientConfig (loadingRules w2.kubeconfig) = .ok cfg2 →
      w2.restClientFor (w2.setKubernetesDefaults cfg2) = .ok cli2 →
      builtRequests (execPod w2 node podCmd).trace = builtRequests (execPod w node podCmd).trace := by
  have key : ∀ (v : World Cfg Cli Exe) (c : Cfg) (k : Cli),
      v.list "kube-system" (podQuery node) = .ok [p] →
      v.clientConfig (loadingRules v.kubeconfig) = .ok c →
      v.restClientFor (v.setKubernetesDefaults c) = .ok k →
      builtRequests (execPod v node podCmd).trace = [("POST", execRequest p.Name podCmd)] := by
    intro v c k h1 h2 h3
    simp only [podQuery] at h1
    simp only [execPod, h1, h2, h3]
    cases h4 : v.newSPDYExecutor (v.setKubernetesDefaults c) "POST" (execRequest p.Name podCmd) <;>
      simp [h4, builtRequests]
  refine ⟨?_, key w cfg cli hlist hcfg hcli, ?_⟩
  · intro hne hdot hdots hslash hpct
    rw [key w cfg cli hlist hcfg hcli, execRequest_valid p.Name podCmd hne hdot hdots hslash hpct]
  · intro w2 cfg2 cli2 h1 h2 h3
    rw [key w cfg cli hlist hcfg hcli, key w2 cfg2 cli2 h1 h2 h3]

/-- Witness of `exec_request_built`: the pod "gadget-abc123" on "node-1". -/
theorem exec_request_built_witness :
    builtRequests (execPod (calmWorld "" [⟨"gadget-abc123"⟩] "o" "e") "node-1" "echo hello").trace =
      [("POST",
        { verb := "POST", resource := "pods", name := "gadget-abc123", ns := "kube-system",
          namespaceSet := true, subResource := "exec", params := [("container", "gadget")],
          versionedParams := some
            { Container := "gadget", Command := ["/bin/sh", "-c", "echo hello"], Stdin := false,
              Stdout := true, Stderr := true, TTY := false },
          err := false })] :=
  (exec_request_built (calmWorld "" [⟨"gadget-abc123"⟩] "o" "e") "node-1" "echo hello"
    ⟨"gadget-abc123"⟩ () () rfl rfl rfl).1 (by decide) (by decide) (by decide) (by decide)
    (by decide)

/-- C4: `execPodCapture` returns what `execPod` wrote to its two sinks and the
error it returned, unchanged; `execPodSimple` returns the error text followed
by both outputs when there is an error and both outputs otherwise, so the
outputs are always a suffix of its result. -/
theorem capture_keeps_output {Cfg Cli Exe : Type} (w : World Cfg Cli Exe) (node podCmd : String) :
    (execPodCapture w node podCmd).stdout = (execPod w node podCmd).stdout ∧
    (execPodCapture w node podCmd).stderr = (execPod w node podCmd).stderr ∧
    (execPodCapture w node podCmd).err = (execPod w node podCmd).err ∧
    (execPodSimple w node podCmd).result =
      (match (execPod w node podCmd).err with
       | some e => e.Error ++ (execPod w node podCmd).stdout ++ (execPod w node podCmd).stderr
       | none => (execPod w node podCmd).stdout ++ (execPod w node podCmd).stderr) ∧
    ((execPod w node podCmd).stdout ++ (execPod w node podCmd).stderr).data <:+
      (execPodSimple w node podCmd).result.data := by
  have hcap : execPodCapture w node podCmd =
      { stdout := (execPod w node podCmd).stdout, stderr := (execPod w node podCmd).stderr,
        err := (execPod w node podCmd).err, trace := (execPod w node podCmd).trace } := by
    simp only [execPodCapture]
    congr 1
  refine ⟨by rw [hcap], by rw [hcap], by rw [hcap], ?_, ?_⟩
  · simp only [execPodSimple, hcap, sprintfErr]
    cases (execPod w node podCmd).err <;> rfl
  · simp only [execPodSimple, hcap, sprintfErr]
    cases (execPod w node podCmd).err
    · exact List.suffix_refl _
    · simp only [String.data_append, List.append_assoc]
      exact List.suffix_append _ _

/-- C7: `execPod` performs its steps in the order list, ClientConfig,
RESTClientFor, NewSPDYExecutor, Stream; the error of the first failing step is
returned as it is and no later step is performed; `nil` is returned exactly
when one pod was listed and the four later steps returned no error. -/
theorem exec_error_propagation {Cfg Cli Exe : Type} (w : World Cfg Cli Exe)
    (node podCmd : String) :
    (execPod w node podCmd).trace.map Event.step <+: execSteps ∧
    (∀ e, w.list "kube-system" (podQuery node) = .error e →
      (execPod w node podCmd).err = some e ∧
      (execPod w node podCmd).trace.map Event.step = [Step.list]) ∧
    (∀ p e, w.list "kube-system" (podQuery node) = .ok [p] →
      w.clientConfig (loadingRules w.kubeconfig) = .error e →
      (execPod w node podCmd).err = some e ∧
      (execPod w node podCmd).trace.map Event.step = [Step.list, Step.clientConfig]) ∧
    (∀ p cfg e, w.list "kube-system" (podQuery node) = .ok [p] →
      w.clientConfig (loadingRules w.kubeconfig) = .ok cfg →
      w.restClientFor (w.setKubernetesDefaults cfg) = .error e →
      (execPod w node podCmd).err = some e ∧
      (execPod w node podCmd).trace.map Event.step =
        [Step.list, Step.clientConfig, Step.restClientFor]) ∧
    (∀ p cfg cli e, w.list "kube-system" (podQuery node) = .ok [p] →
      w.clientConfig (loadingRules w.kubeconfig) = .ok cfg →
      w.restClientFor (w.setKubernetesDefaults cfg) = .ok cli →
      w.newSPDYExecutor (w.setKubernetesDefaults cfg) "POST" (execRequest p.Name podCmd) =
        .error e →
      (execPod w node podCmd).err = some e ∧
      (execPod w node podCmd).trace.map Event.step =
        [Step.list, Step.clientConfig, Step.restClientFor, Step.newSPDYExecutor]) ∧
    (∀ p cfg cli exe e, w.list "kube-system" (podQuery node) = .ok [p] →
      w.clientConfig (loadingRules w.kubeconfig) = .ok cfg →
      w.restClientFor (w.setKubernetesDefaults cfg) = .ok cli →
      w.newSPDYExecutor (w.setKubernetesDefaults cfg) "POST" (execRequest p.Name podCmd) =
        .ok exe →
      (w.stream exe streamOptions).2.2 = some e →
      (execPod w node podCmd).err = some e ∧
      (execPod w node podCmd).trace.map Event.step = execSteps) ∧
    ((execPod w node podCmd).err = none ↔
      ∃ p cfg cli exe, w.list "kube-system" (podQuery node) = .ok [p] ∧
        w.clientConfig (loadingRules w.kubeconfig) = .ok cfg ∧
        w.restClientFor (w.setKubernetesDefaults cfg) = .ok cli ∧
        w.newSPDYExecutor (w.setKubernetesDefaults cfg) "POST" (execRequest p.Name podCmd) =
          .ok exe ∧
        (w.stream exe streamOptions).2.2 = none) := by
  simp only [podQuery]
  refine ⟨?_, ?_, ?_, ?_, ?_, ?_, ?_⟩
  · simp only [execPod]
    repeat' split
    all_goals simp [Event.step, execSteps]
  · intro e h
    simp [execPod, h, Event.step]
  · intro p e h1 h2
    simp [execPod, h1, h2, Event.step]
  · intro p cfg e h1 h2 h3
    simp [execPod, h1, h2, h3, Event.step]
  · intro p cfg cli e h1 h2 h3 h4
    simp [execPod, h1, h2, h3, h4, Event.step]
  · intro p cfg cli exe e h1 h2 h3 h4 h5
    simp [execPod, h1, h2, h3, h4, h5, execSteps, Event.step]
  · constructor
    · intro h
      simp only [execPod] at h
      split at h
      · simp at h
      · rename_i pods hl
        split at h
        · simp at h
        · split at h
          · simp at h
          · rename_i h0 h1
            obtain ⟨p, rfl⟩ : ∃ p, pods = [p] := by
              match pods, h0, h1 with
              | [p], _, _ => exact ⟨p, rfl⟩
              | [], h0, _ => simp at h0
              | _ :: _ :: _, _, h1 => simp at h1
            split at h
            · simp at h
            · rename_i cfg hc
              split at h
              · simp at h
              · rename_i cli hr
                split at h
                · simp at h
                · rename_i exe hx
                  exact ⟨p, cfg, cli, exe, hl, hc, hr, hx, h⟩
    · rintro ⟨p, cfg, cli, exe, h1, h2, h3, h4, h5⟩
      simp [execPod, h1, h2, h3, h4, h5]

/-- Witness of `exec_error_propagation`: the REST client cannot be built. -/
theorem exec_error_propagation_witness :
    (execPod noClientWorld "node-1" "ls").err = some (errorsNew "no client") ∧
    (execPod noClientWorld "node-1" "ls").trace.map Event.step =
      [Step.list, Step.clientConfig, Step.restClientFor] :=
  (exec_error_propagation noClientWorld "node-1" "ls").2.2.2.1 ⟨"gadget-abc123"⟩ ()
    (errorsNew "no client") rfl rfl rfl

/-! ### The list options -/

/-- Reading a term without separator moves it to the accumulator. -/
theorem splitAux_append (sep : Char) (t rest cur : List Char) (ht : sep ∉ t) :
    splitAux sep (t ++ rest) cur = splitAux sep rest (t.reverse ++ cur) := by
  induction t generalizing cur with
  | nil => rfl
  | cons c cs ih =>
    have hc : c ≠ sep := fun h => ht (by simp [h])
    have hcs : sep ∉ cs := fun h => ht (by simp [h])
    simp only [List.cons_append, splitAux, hc, if_false, List.reverse_cons, List.append_assoc,
      List.singleton_append]
    exact ih (c :: cur) hcs

/-- Reading the separator closes the current term. -/
theorem splitAux_sep (sep : Char) (rest cur : List Char) :
    splitAux sep (sep :: rest) cur = String.mk cur.reverse :: splitAux sep rest [] := by
  simp [splitAux]

/-- C10 (counterexample): for the node identifier "a,b" the field selector sent
splits at its commas into three terms, not two. -/
theorem field_selector_terms_counterexample :
    listCalls (execPod (calmWorld "" [] "" "") "a,b" "ls").trace =
      [("kube-system", { LabelSelector := "k8s-app=gadget",
                         FieldSelector := "spec.nodeName=" ++ "a,b" ++ ",status.phase=Running" })] ∧
    commaTerms ("spec.nodeName=" ++ "a,b" ++ ",status.phase=Running") =
      ["spec.nodeName=a", "b", "status.phase=Running"] ∧
    commaTerms ("spec.nodeName=" ++ "a,b" ++ ",status.phase=Running") ≠
      ["spec.nodeName=" ++ "a,b", "status.phase=Running"] := by
  decide

/-- C10 (amended): for every node identifier `execPod` and `cpPodQuick` make
one list call, in namespace "kube-system", with label selector
"k8s-app=gadget" and field selector "spec.nodeName=" ++ node ++
",status.phase=Running"; when the node identifier holds no comma, that field
selector splits at its commas into exactly the two terms
"spec.nodeName=" ++ node and "status.phase=Running". -/
theorem list_options_sent {Cfg Cli Exe : Type} (w : World Cfg Cli Exe)
    (node podCmd srcPath destPath : String) :
    listCalls (execPod w node podCmd).trace =
      [("kube-system", { LabelSelector := "k8s-app=gadget",
                         FieldSelector := "spec.nodeName=" ++ node ++ ",status.phase=Running" })] ∧
    listCalls (cpPodQuick w node srcPath destPath).trace =
      [("kube-system", { LabelSelector := "k8s-app=gadget",
                         FieldSelector := "spec.nodeName=" ++ node ++ ",status.phase=Running" })] ∧
    (',' ∉ node.data →
      commaTerms ("spec.nodeName=" ++ node ++ ",status.phase=Running") =
        ["spec.nodeName=" ++ node, "status.phase=Running"]) := by
  refine ⟨?_, ?_, ?_⟩
  · simp only [execPod]
    repeat' split
    all_goals simp [listCalls]
  · simp only [cpPodQuick]
    repeat' split
    all_goals simp [listCalls]
  · intro hnode
    have hdata : ("spec.nodeName=" ++ node ++ ",status.phase=Running").data =
        ("spec.nodeName=".data ++ node.data) ++ (',' :: "status.phase=Running".data) := by
      simp only [String.data_append]
    have hsep : ',' ∉ "spec.nodeName=".data ++ node.data := by
      intro h
      rcases List.mem_append.1 h with h | h
      · revert h
        decide
      · exact hnode h
    have htail : splitAux ',' "status.phase=Running".data [] = ["status.phase=Running"] := by
      decide
    have hmk : String.mk ("spec.nodeName=".data ++ node.data) = "spec.nodeName=" ++ node := by
      apply String.ext
      simp
    simp only [commaTerms, hdata]
    rw [splitAux_append ',' _ _ [] hsep, splitAux_sep, htail, List.append_nil,
      List.reverse_reverse, hmk]

/-- Witness of `list_options_sent`: the node "node-1". -/
theorem list_options_sent_witness :
    commaTerms ("spec.nodeName=" ++ "node-1" ++ ",status.phase=Running") =
      ["spec.nodeName=" ++ "node-1", "status.phase=Running"] :=
  (list_options_sent (calmWorld "" [] "" "") "node-1" "ls" "a" "b").2.2 (by decide)

/-! ### The copy path -/

/-- A list with one element that is neither empty nor longer. -/
theorem eq_singleton_of_length {α : Type} (l : List α) (h0 : ¬ l.length = 0)
    (h1 : ¬ l.length ≠ 1) : ∃ a, l = [a] := by
  match l, h0, h1 with
  | [a], _, _ => exact ⟨a, rfl⟩
  | [], h0, _ => simp at h0
  | _ :: _ :: _, _, h1 => simp at h1

/-- C9: in every run of `cpPodQuick` that starts a child process, the trace is
the list call, then one print of the command line, then the start of
`/bin/sh -c` on that same line, then at most a wait: one print, one start, the
print first.  When pod location fails (no list result with exactly one pod)
nothing is printed and nothing is started. -/
theorem print_precedes_spawn {Cfg Cli Exe : Type} (w : World Cfg Cli Exe)
    (node srcPath destPath : String) :
    (spawned (cpPodQuick w node srcPath destPath).trace ≠ [] →
      ∃ line post,
        (cpPodQuick w node srcPath destPath).trace =
          Event.list "kube-system" (podQuery node) :: Event.println line ::
            Event.start (execCommand "/bin/sh" ["-c", line]) :: post ∧
        printed post = [] ∧ spawned post = [] ∧
        printed (cpPodQuick w node srcPath destPath).trace = [line] ∧
        spawned (cpPodQuick w node srcPath destPath).trace =
          [execCommand "/bin/sh" ["-c", line]]) ∧
    ((¬ ∃ p, w.list "kube-system" (podQuery node) = .ok [p]) →
      printed (cpPodQuick w node srcPath destPath).trace = [] ∧
      spawned (cpPodQuick w node srcPath destPath).trace = []) := by
  simp only [podQuery]
  constructor
  · intro h
    simp only [cpPodQuick] at h ⊢
    split at h
    · simp [spawned] at h
    · split at h
      · simp [spawned] at h
      · split at h
        · simp [spawned] at h
        · rename_i pods hl h0 h1
          simp only [hl, h0, h1, dite_false, ite_false]
          refine ⟨kubectlCmd w.kubeconfig srcPath (pods.get ⟨0, Nat.pos_of_ne_zero h0⟩).Name
            destPath, ?_⟩
          cases hs : w.start (execCommand "/bin/sh" ["-c",
              kubectlCmd w.kubeconfig srcPath (pods.get ⟨0, Nat.pos_of_ne_zero h0⟩).Name destPath])
          · cases hw : w.wait (execCommand "/bin/sh" ["-c",
                kubectlCmd w.kubeconfig srcPath (pods.get ⟨0, Nat.pos_of_ne_zero h0⟩).Name
                  destPath])
            · exact ⟨[Event.wait _], rfl, rfl, rfl, rfl, rfl⟩
            · exact ⟨[Event.wait _], rfl, rfl, rfl, rfl, rfl⟩
          · exact ⟨[], rfl, rfl, rfl, rfl, rfl⟩
  · intro h
    simp only [cpPodQuick]
    split
    · simp [printed, spawned]
    · split
      · simp [printed, spawned]
      · split
        · simp [printed, spawned]
        · rename_i pods hl h0 h1
          obtain ⟨a, rfl⟩ := eq_singleton_of_length pods h0 h1
          exact absurd ⟨a, hl⟩ h

/-- Witness of `print_precedes_spawn`: a copy onto the single pod of a node. -/
theorem print_precedes_spawn_witness :
    ∃ line post,
      (cpPodQuick (calmWorld "/k" [⟨"gadget-abc123"⟩] "" "") "node-1" "a" "b").trace =
        Event.list "kube-system" (podQuery "node-1") :: Event.println line ::
          Event.start (execCommand "/bin/sh" ["-c", line]) :: post ∧
      printed post = [] ∧ spawned post = [] ∧
      printed (cpPodQuick (calmWorld "/k" [⟨"gadget-abc123"⟩] "" "") "node-1" "a" "b").trace =
        [line] ∧
      spawned (cpPodQuick (calmWorld "/k" [⟨"gadget-abc123"⟩] "" "") "node-1" "a" "b").trace =
        [execCommand "/bin/sh" ["-c", line]] :=
  (print_precedes_spawn (calmWorld "/k" [⟨"gadget-abc123"⟩] "" "") "node-1" "a" "b").1 (by decide)

/-- C6 (counterexample): when the list call fails with an error whose text is
empty, `cpPodQuick` returns the empty string although nothing was copied. -/
theorem copy_result_counterexample :
    (cpPodQuick silentFailureWorld "node-1" "a" "b").result = "" ∧
    ¬ copySucceeded silentFailureWorld "node-1" "a" "b" := by
  refine ⟨by decide, ?_⟩
  rintro ⟨p, h, _⟩
  simp [silentFailureWorld] at h

/-- C6 (amended): provided every error returned by the list call, by the start
and by the wait of the child process has a non-empty text, `cpPodQuick` returns
the empty string if and only if the copy succeeded: one pod listed, the child
process started and waited for without error; so in every failing case the
result is not empty. -/
theorem copy_result_empty_iff {Cfg Cli Exe : Type} (w : World Cfg Cli Exe)
    (node srcPath destPath : String)
    (hlist : ∀ e, w.list "kube-system" (podQuery node) = .error e → e.Error ≠ "")
    (hstart : ∀ c e, w.start c = some e → e.Error ≠ "")
    (hwait : ∀ c e, w.wait c = some e → e.Error ≠ "") :
    ((cpPodQuick w node srcPath destPath).result = "" ↔
      copySucceeded w node srcPath destPath) ∧
    (¬ copySucceeded w node srcPath destPath →
      (cpPodQuick w node srcPath destPath).result ≠ "") := by
  suffices hiff : (cpPodQuick w node srcPath destPath).result = "" ↔
      copySucceeded w node srcPath destPath from ⟨hiff, fun hn hr => hn (hiff.1 hr)⟩
  simp only [podQuery, copySucceeded] at *
  constructor
  · intro h
    simp only [cpPodQuick] at h
    split at h
    · rename_i e hl
      exact absurd h (hlist e hl)
    · split at h
      · simp at h
      · split at h
        · simp at h
        · rename_i pods hl h0 h1
          obtain ⟨a, rfl⟩ := eq_singleton_of_length pods h0 h1
          simp only [List.get_eq_getElem, List.getElem_cons_zero] at h
          split at h
          · rename_i e hs
            exact absurd h (hstart _ e hs)
          · rename_i hs
            split at h
            · rename_i e hw
              exact absurd h (hwait _ e hw)
            · rename_i hw
              exact ⟨a, hl, hs, hw⟩
  · rintro ⟨p, hl, hs, hw⟩
    simp [cpPodQuick, hl, hs, hw]

/-- Witness of `copy_result_empty_iff`: a world in which nothing fails. -/
theorem copy_result_empty_iff_witness :
    (cpPodQuick (calmWorld "/k" [⟨"gadget-abc123"⟩] "" "") "node-1" "a" "b").result = "" ↔
      copySucceeded (calmWorld "/k" [⟨"gadget-abc123"⟩] "" "") "node-1" "a" "b" :=
  (copy_result_empty_iff (calmWorld "/k" [⟨"gadget-abc123"⟩] "" "") "node-1" "a" "b"
    (fun _ h => by simp [calmWorld] at h) (fun _ _ h => by simp [calmWorld] at h)
    (fun _ _ h => by simp [calmWorld] at h)).1

/-! ### The command line of the copy -/

/-- The characters of the command line, cut at its fixed separators. -/
theorem kubectlCmd_data (k src pod dst : String) :
    (kubectlCmd k src pod dst).data =
      "kubectl".data ++ ' ' :: ((if k ≠ "" then "--kubeconfig=".data ++ k.data else []) ++
        ' ' :: ("cp".data ++ ' ' :: (src.data ++ ' ' :: (("kube-system".data ++
          '/' :: (pod.data ++ ':' :: dst.data)))))) := by
  unfold kubectlCmd
  by_cases hk : k = ""
  · subst hk
    simp only [ne_eq, not_true_eq_false, if_false, String.data_append, List.append_assoc]
    rfl
  · simp only [ne_eq, hk, not_false_eq_true, if_true, String.data_append, List.append_assoc]
    rfl

/-- A pattern that does not hold `c` cannot start in `t` and run over `c`. -/
theorem isPrefixOf_append_sep (pat t b : List Char) (c : Char) (hc : c ∉ pat) :
    pat.isPrefixOf (t ++ c :: b) = pat.isPrefixOf t := by
  induction pat generalizing t with
  | nil => simp
  | cons x xs ih =>
    have hx : x ≠ c := fun h => hc (by simp [h])
    have hxs : c ∉ xs := fun h => hc (by simp [h])
    cases t with
    | nil => simp [List.isPrefixOf, hx]
    | cons y ys => simp [List.isPrefixOf, ih ys hxs]

/-- Occurrences of a pattern that does not hold `c` add up across `c`. -/
theorem occurrences_append_sep (pat a b : List Char) (c : Char) (hne : pat ≠ [])
    (hc : c ∉ pat) :
    occurrences pat (a ++ c :: b) = occurrences pat a + occurrences pat b := by
  have hemp : pat.isEmpty = false := by
    cases pat with
    | nil => exact absurd rfl hne
    | cons _ _ => rfl
  induction a with
  | nil =>
    have h0 : pat.isPrefixOf (c :: b) = false := by
      have := isPrefixOf_append_sep pat [] b c hc
      simp only [List.nil_append] at this
      rw [this]
      cases pat with
      | nil => exact absurd rfl hne
      | cons _ _ => rfl
    simp [occurrences, h0, hemp]
  | cons y ys ih =>
    have h1 : pat.isPrefixOf (y :: (ys ++ c :: b)) = pat.isPrefixOf (y :: ys) :=
      isPrefixOf_append_sep pat (y :: ys) b c hc
    show (if pat.isPrefixOf (y :: (ys ++ c :: b)) then 1 else 0) +
        occurrences pat (ys ++ c :: b) =
      ((if pat.isPrefixOf (y :: ys) then 1 else 0) + occurrences pat ys) + occurrences pat b
    rw [h1, ih]
    omega

/-- The flag itself holds the pattern once, at its start. -/
theorem occurrences_flag (rest : List Char) :
    occurrences "--kubeconfig=".data ("--kubeconfig=".data ++ rest) =
      1 + occurrences "--kubeconfig=".data rest := by
  have hp : "--kubeconfig=".data =
      ['-', '-', 'k', 'u', 'b', 'e', 'c', 'o', 'n', 'f', 'i', 'g', '='] := rfl
  rw [hp]
  simp [occurrences, List.isPrefixOf]

/-- C5 (counterexample): with no kubeconfig configured and the source path
"--kubeconfig=x", the command line holds one occurrence of "--kubeconfig=",
not zero; with a kubeconfig configured it holds two, not one. -/
theorem kubeconfig_clause_counterexample :
    countSubstr "--kubeconfig=" (kubectlCmd "" "--kubeconfig=x" "gadget-abc123" "/tmp/x") = 1 ∧
    countSubstr "--kubeconfig=" (kubectlCmd "/k" "--kubeconfig=x" "gadget-abc123" "/tmp/x") = 2 := by
  decide

/-- C5 (amended): the command line built by `cpPodQuick` holds the substring
"--kubeconfig=" once for the flag it adds when the configured kubeconfig is
not empty (never when it is empty), plus once for every occurrence inside
the kubeconfig value, the source path, the pod name and the destination path;
so it holds it exactly once (kubeconfig not empty) or not at all (kubeconfig
empty) when none of these four strings holds it.  `cpPodQuick` prints that
command line whenever it lists exactly one pod. -/
theorem kubeconfig_clause_count {Cfg Cli Exe : Type} (w : World Cfg Cli Exe)
    (node : String) (k src pod dst : String) :
    countSubstr "--kubeconfig=" (kubectlCmd k src pod dst) =
      (if k ≠ "" then 1 else 0) + countSubstr "--kubeconfig=" k +
        countSubstr "--kubeconfig=" src + countSubstr "--kubeconfig=" pod +
        countSubstr "--kubeconfig=" dst ∧
    (countSubstr "--kubeconfig=" k = 0 → countSubstr "--kubeconfig=" src = 0 →
      countSubstr "--kubeconfig=" pod = 0 → countSubstr "--kubeconfig=" dst = 0 →
      countSubstr "--kubeconfig=" (kubectlCmd k src pod dst) = if k ≠ "" then 1 else 0) ∧
    (w.list "kube-system" (podQuery node) = .ok [⟨pod⟩] →
      printed (cpPodQuick w node src dst).trace = [kubectlCmd w.kubeconfig src pod dst]) := by
  have hcount : countSubstr "--kubeconfig=" (kubectlCmd k src pod dst) =
      (if k ≠ "" then 1 else 0) + countSubstr "--kubeconfig=" k +
        countSubstr "--kubeconfig=" src + countSubstr "--kubeconfig=" pod +
        countSubstr "--kubeconfig=" dst := by
    have hne : "--kubeconfig=".data ≠ [] := by decide
    have hsp : ' ' ∉ "--kubeconfig=".data := by decide
    have hsl : '/' ∉ "--kubeconfig=".data := by decide
    have hco : ':' ∉ "--kubeconfig=".data := by decide
    have c1 : occurrences "--kubeconfig=".data "kubectl".data = 0 := by decide
    have c2 : occurrences "--kubeconfig=".data "cp".data = 0 := by decide
    have c3 : occurrences "--kubeconfig=".data "kube-system".data = 0 := by decide
    unfold countSubstr
    rw [kubectlCmd_data, occurrences_append_sep _ _ _ ' ' hne hsp,
      occurrences_append_sep _ _ _ ' ' hne hsp, occurrences_append_sep _ _ _ ' ' hne hsp, occurrences_append_sep _ _ _ ' ' hne hsp,
      occurrences_append_sep _ _ _ '/' hne hsl, occurrences_append_sep _ _ _ ':' hne hco,
      c1, c2, c3]
    by_cases hk : k ≠ ""
    · rw [if_pos hk, if_pos hk, occurrences_flag]
      omega
    · have hk2 : k = "" := not_not.1 hk
      have c4 : occurrences "--kubeconfig=".data k.data = 0 := by
        rw [hk2]
        decide
      have c5 : occurrences "--kubeconfig=".data [] = 0 := by decide
      rw [if_neg hk, if_neg hk, c4, c5]
      omega
  refine ⟨hcount, ?_, ?_⟩
  · intro h1 h2 h3 h4
    rw [hcount, h1, h2, h3, h4]
    rfl
  · intro hl
    simp only [podQuery] at hl
    simp only [cpPodQuick, hl]
    simp only [List.length_singleton, one_ne_zero, dite_false, ne_eq, not_true_eq_false,
      ite_false, List.get_eq_getElem, List.getElem_cons_zero]
    repeat' split
    all_goals simp [printed]

/-- Witness of `kubeconfig_clause_count`: a copy with a kubeconfig configured. -/
theorem kubeconfig_clause_count_witness :
    countSubstr "--kubeconfig=" (kubectlCmd "/k" "a" "gadget-abc123" "b") = 1 ∧
    printed (cpPodQuick (calmWorld "/k" [⟨"gadget-abc123"⟩] "" "") "node-1" "a" "b").trace =
      [kubectlCmd "/k" "a" "gadget-abc123" "b"] :=
  have h := kubeconfig_clause_count (calmWorld "/k" [⟨"gadget-abc123"⟩] "" "") "node-1" "/k" "a"
    "gadget-abc123" "b"
  ⟨h.2.1 (by decide) (by decide) (by decide) (by decide), h.2.2 rfl⟩

/-- Reading characters that are not whitespace moves them to the current word. -/
theorem wordsAux_append (t rest cur : List Char) (ht : ∀ c ∈ t, c.isWhitespace = false) :
    wordsAux (t ++ rest) cur = wordsAux rest (t.reverse ++ cur) := by
  induction t generalizing cur with
  | nil => rfl
  | cons c cs ih =>
    have hc : c.isWhitespace = false := ht c (by simp)
    have hcs : ∀ d ∈ cs, d.isWhitespace = false := fun d hd => ht d (by simp [hd])
    simp only [List.cons_append, wordsAux, hc, Bool.false_eq_true, if_false, List.reverse_cons,
      List.append_assoc, List.singleton_append]
    exact ih (c :: cur) hcs

/-- A non-empty word followed by a blank is the first word. -/
theorem wordsAux_word_blank (t rest : List Char) (ht : ∀ c ∈ t, c.isWhitespace = false)
    (hne : t ≠ []) : wordsAux (t ++ ' ' :: rest) [] = String.mk t :: wordsAux rest [] := by
  have hemp : t.reverse.isEmpty = false := by
    cases h : t.reverse with
    | nil => exact absurd (List.reverse_eq_nil_iff.1 h) hne
    | cons _ _ => rfl
  have hblank : (' ' : Char).isWhitespace = true := by decide
  rw [wordsAux_append t _ [] ht, List.append_nil]
  simp only [wordsAux, hblank, if_true, hemp, Bool.false_eq_true, if_false, List.reverse_reverse]

/-- A blank before any word is skipped. -/
theorem wordsAux_blank (rest : List Char) : wordsAux (' ' :: rest) [] = wordsAux rest [] := by
  have hblank : (' ' : Char).isWhitespace = true := by decide
  simp [wordsAux, hblank]

/-- A non-empty word at the end is the last word. -/
theorem wordsAux_last (t : List Char) (ht : ∀ c ∈ t, c.isWhitespace = false) (hne : t ≠ []) :
    wordsAux t [] = [String.mk t] := by
  have hemp : t.reverse.isEmpty = false := by
    cases h : t.reverse with
    | nil => exact absurd (List.reverse_eq_nil_iff.1 h) hne
    | cons _ _ => rfl
  have h := wordsAux_append t [] [] ht
  rw [List.append_nil, List.append_nil] at h
  rw [h]
  simp only [wordsAux, hemp, Bool.false_eq_true, if_false, List.reverse_reverse]

/-- C8 (counterexample): with the source path "a b" the command line splits
into six words, the source path taking two of them; with an empty source path
and no kubeconfig it splits into three words, none for the source path. -/
theorem copy_words_counterexample :
    words (kubectlCmd "/k" "a b" "gadget-abc123" "/tmp/x") =
      ["kubectl", "--kubeconfig=/k", "cp", "a", "b", "kube-system/gadget-abc123:/tmp/x"] ∧
    words (kubectlCmd "/k" "a b" "gadget-abc123" "/tmp/x") ≠
      ["kubectl", "--kubeconfig=" ++ "/k", "cp", "a b",
        "kube-system/" ++ "gadget-abc123" ++ ":" ++ "/tmp/x"] ∧
    words (kubectlCmd "" "" "gadget-abc123" "/tmp/x") ≠
      ["kubectl", "cp", "", "kube-system/" ++ "gadget-abc123" ++ ":" ++ "/tmp/x"] := by
  decide

/-- The words of the command line when its four variable parts hold no
whitespace and the source path is not empty. -/
theorem words_kubectlCmd (k src pod dst : String)
    (hk : ∀ c ∈ k.data, c.isWhitespace = false)
    (hsrc : ∀ c ∈ src.data, c.isWhitespace = false)
    (hpod : ∀ c ∈ pod.data, c.isWhitespace = false)
    (hdst : ∀ c ∈ dst.data, c.isWhitespace = false)
    (hne : src ≠ "") :
    words (kubectlCmd k src pod dst) =
      if k ≠ "" then
        ["kubectl", "--kubeconfig=" ++ k, "cp", src, "kube-system/" ++ pod ++ ":" ++ dst]
      else ["kubectl", "cp", src, "kube-system/" ++ pod ++ ":" ++ dst] := by
  have w1 : ∀ c ∈ "kubectl".data, c.isWhitespace = false := by decide
  have w2 : ∀ c ∈ "cp".data, c.isWhitespace = false := by decide
  have w3 : ∀ c ∈ "kube-system".data ++ '/' :: (pod.data ++ ':' :: dst.data),
      c.isWhitespace = false := by
    intro c hc
    rcases List.mem_append.1 hc with h | h
    · exact (show ∀ c ∈ "kube-system".data, c.isWhitespace = false by decide) c h
    · rcases List.mem_cons.1 h with h | h
      · subst h
        decide
      · rcases List.mem_append.1 h with h | h
        · exact hpod c h
        · rcases List.mem_cons.1 h with h | h
          · subst h
            decide
          · exact hdst c h
  have w4 : ∀ c ∈ "--kubeconfig=".data ++ k.data, c.isWhitespace = false := by
    intro c hc
    rcases List.mem_append.1 hc with h | h
    · exact (show ∀ c ∈ "--kubeconfig=".data, c.isWhitespace = false by decide) c h
    · exact hk c h
  have n1 : "kubectl".data ≠ [] := by decide
  have n2 : "cp".data ≠ [] := by decide
  have n3 : "kube-system".data ++ '/' :: (pod.data ++ ':' :: dst.data) ≠ [] := by
    intro h
    have := congrArg List.length h
    simp at this
  have n4 : "--kubeconfig=".data ++ k.data ≠ [] := by
    intro h
    have := congrArg List.length h
    simp at this
  have n5 : src.data ≠ [] := fun h => hne (String.ext h)
  have m1 : String.mk "kubectl".data = "kubectl" := rfl
  have m2 : String.mk "cp".data = "cp" := rfl
  have m3 : String.mk ("kube-system".data ++ '/' :: (pod.data ++ ':' :: dst.data)) =
      "kube-system/" ++ pod ++ ":" ++ dst := by
    apply String.ext
    simp only [String.data_append, List.append_assoc]
    rfl
  have m4 : String.mk ("--kubeconfig=".data ++ k.data) = "--kubeconfig=" ++ k := by
    apply String.ext
    simp only [String.data_append]
  have m5 : String.mk src.data = src := rfl
  unfold words
  rw [kubectlCmd_data, wordsAux_word_blank _ _ w1 n1, m1]
  by_cases hkne : k ≠ ""
  · rw [if_pos hkne, if_pos hkne, wordsAux_word_blank _ _ w4 n4, m4,
      wordsAux_word_blank _ _ w2 n2, m2, wordsAux_word_blank _ _ hsrc n5, m5,
      wordsAux_last _ w3 n3, m3]
  · rw [if_neg hkne, if_neg hkne, List.nil_append, wordsAux_blank,
      wordsAux_word_blank _ _ w2 n2, m2, wordsAux_word_blank _ _ hsrc n5, m5,
      wordsAux_last _ w3 n3, m3]

/-- C8 (amended): when `cpPodQuick` lists exactly one pod, the command line it
hands to `/bin/sh -c` is `kubectlCmd`; when the kubeconfig value, the source
path, the pod name and the destination path hold no whitespace and the source
path is not empty, that command line splits into the words "kubectl",
"--kubeconfig=" ++ k (only when k is not empty), "cp", the source path and
"kube-system/" ++ pod ++ ":" ++ destination. -/
theorem copy_words {Cfg Cli Exe : Type} (w : World Cfg Cli Exe) (node src pod dst : String)
    (hlist : w.list "kube-system" (podQuery node) = .ok [⟨pod⟩])
    (hk : ∀ c ∈ w.kubeconfig.data, c.isWhitespace = false)
    (hsrc : ∀ c ∈ src.data, c.isWhitespace = false)
    (hpod : ∀ c ∈ pod.data, c.isWhitespace = false)
    (hdst : ∀ c ∈ dst.data, c.isWhitespace = false)
    (hne : src ≠ "") :
    spawned (cpPodQuick w node src dst).trace =
      [execCommand "/bin/sh" ["-c", kubectlCmd w.kubeconfig src pod dst]] ∧
    words (kubectlCmd w.kubeconfig src pod dst) =
      if w.kubeconfig ≠ "" then
        ["kubectl", "--kubeconfig=" ++ w.kubeconfig, "cp", src,
          "kube-system/" ++ pod ++ ":" ++ dst]
      else ["kubectl", "cp", src, "kube-system/" ++ pod ++ ":" ++ dst] := by
  refine ⟨?_, words_kubectlCmd w.kubeconfig src pod dst hk hsrc hpod hdst hne⟩
  simp only [podQuery] at hlist
  simp only [cpPodQuick, hlist]
  simp only [List.length_singleton, one_ne_zero, dite_false, ne_eq, not_true_eq_false,
    ite_false, List.get_eq_getElem, List.getElem_cons_zero]
  repeat' split
  all_goals simp [spawned]

/-- Witness of `copy_words`: a copy with a kubeconfig configured. -/
theorem copy_words_witness :
    spawned (cpPodQuick (calmWorld "/k" [⟨"gadget-abc123"⟩] "" "") "node-1" "a" "/tmp/x").trace =
      [execCommand "/bin/sh" ["-c", kubectlCmd "/k" "a" "gadget-abc123" "/tmp/x"]] ∧
    words (kubectlCmd "/k" "a" "gadget-abc123" "/tmp/x") =
      ["kubectl", "--kubeconfig=" ++ "/k", "cp", "a",
        "kube-system/" ++ "gadget-abc123" ++ ":" ++ "/tmp/x"] :=
  copy_words (calmWorld "/k" [⟨"gadget-abc123"⟩] "" "") "node-1" "a" "gadget-abc123" "/tmp/x" rfl
    (by decide) (by decide) (by decide) (by decide) (by decide)

end InspektorGadget
